import Mathlib

/-!
Verification development for the passport-openam authentication strategy.

The definitions below are a shallow embedding of the strategy implemented in
the JavaScript source file of the repository (the `OpenAmStrategy` object:
its `authenticate`, `_loadUserProfile` and `userProfile` methods), together
with the small request and configuration data model those methods read.

Modelling conventions:
- JavaScript values reachable by the strategy are modelled by `JsVal`
  (strings, `undefined`, `null`, and plain objects as association lists).
- Thrown JavaScript exceptions are modelled by `JsError`; a method that can
  throw is embedded as a function returning `Except JsError _` or, for the
  top-level `authenticate`, by the dedicated `Outcome.thrown` variant.
- The asynchronous callbacks of the source are sequential per request, so
  each callback chain is embedded as a plain function composition; the value
  a continuation is eventually called with is the function result.
- The external collaborators (the openam client object and the application
  supplied `verify` function) are parameters gathered into `OpenAmEnv`.
- Calls to the external collaborators are recorded in a trace
  (`List Call`) so that invocation counts can be stated.
-/

/-- A JavaScript value as far as the strategy manipulates one: a string, the
`undefined` value, the `null` value, or a plain object whose fields are an
association list in insertion order. -/
inductive JsVal where
  | str (s : String)
  | undef
  | null
  | obj (fields : List (String × JsVal))

/-- A JavaScript exception value. `appError` stands for an arbitrary error
value supplied by an external collaborator or by the application callback;
`internalOpenAmError` embeds the InternalOpenAmError wrapper class of the
repository, which carries a message and the underlying cause. -/
inductive JsError where
  | typeError (message : String)
  | referenceError (message : String)
  | appError (v : String)
  | internalOpenAmError (message : String) (cause : JsError)

/-- The terminal result of one `authenticate` invocation. The first four
variants are the four passport outcome channels. `thrown e` means the
invocation raised the JavaScript exception `e` instead of signalling a
channel, and `nothing` means the invocation returned without signalling any
channel and without throwing. -/
inductive Outcome where
  | redirect (location : String)
  | success (user : String) (info : Option String)
  | fail (info : Option String)
  | error (cause : JsError)
  | thrown (e : JsError)
  | nothing

/-- True exactly when the outcome is one of the four passport channels
(redirect, success, fail, error). -/
def Outcome.signalsChannel : Outcome → Bool
  | Outcome.redirect _ => true
  | Outcome.success _ _ => true
  | Outcome.fail _ => true
  | Outcome.error _ => true
  | Outcome.thrown _ => false
  | Outcome.nothing => false

/-- One recorded call to an external collaborator. -/
inductive Call where
  | isTokenValidCall (token : String)
  | getAttributesCall (token : String)
  | verifyCall (token : String) (profile : Option JsVal)

/-- Whether a recorded call is an attribute fetch. -/
def Call.isGetAttributesCall : Call → Bool
  | Call.getAttributesCall _ => true
  | _ => false

/-- Whether a recorded call is an invocation of the application verify
callback. -/
def Call.isVerifyCall : Call → Bool
  | Call.verifyCall _ _ => true
  | _ => false

/-- The `skipUserProfile` option of the strategy: a plain boolean, a
function of arity at most one (invoked synchronously with no argument), or
a function of arity greater than one (invoked with the token and a
callback, embedded as a fallible function). This mirrors the
`typeof == 'function' && length > 1` dispatch in `_loadUserProfile`. -/
inductive SkipUserProfile where
  | ofBool (b : Bool)
  | syncFn (f : Unit → Bool)
  | asyncFn (f : String → Except JsError Bool)

/-- The configuration the constructor stores on the strategy after applying
its defaults (`openAmCookieName` defaults to "iPlanetDirectoryPro",
`skipUserProfile` to false). `callbackUrl` is the required option. -/
structure StrategyConfig where
  openAmCookieName : String
  callbackUrl : String
  skipUserProfile : SkipUserProfile

/-- The parts of the inbound request the strategy reads. `queryError` and
`queryCode` are the truthiness of `req.query && req.query.error` and of
`req.query && req.query.code`; `cookieHeader` is `req.headers.cookie`,
absent when the request carried no cookie header. -/
structure Request where
  queryError : Bool
  queryCode : Bool
  cookieHeader : Option String

/-- The per-request options object of `authenticate`; `callbackUrl` is the
optional per-request override of the configured callback URL. -/
structure AuthOptions where
  callbackUrl : Option String

/-- What the application verify callback passes to its `done` continuation:
an error value, a user (where `none` stands for any falsy user value) and
an info value. -/
structure VerifyDone where
  err : Option JsError
  user : Option String
  info : Option String

/-- The external collaborators of one request: the openam client
(`isTokenValid`, `getAttributes`, and the base login UI location used by
`getLoginUiUrl`) and the application supplied verify function. -/
structure OpenAmEnv where
  isTokenValid : String → Bool
  getAttributes : String → Except JsError JsVal
  loginUiUrl : String
  verify : Request → String → Option JsVal → VerifyDone

/-- JavaScript `options.callbackUrl || this._callbackUrl`: the override is
used when present and truthy (non-empty), else the default. -/
def jsOrStr (o : Option String) (d : String) : String :=
  match o with
  | some s => if s == "" then d else s
  | none => d

/-- Whether `url.parse` finds a protocol at the start of the string: a
non-empty run of ASCII letters, digits, `.`, `+` or `-` followed by a
colon. -/
def isUrlProtocolChar (c : Char) : Bool :=
  (c.isAlpha || c.isDigit) || ((c == '.') || (c == '+') || (c == '-'))

/-- `url.parse(s).protocol` is non-null. -/
def hasProtocol (s : String) : Bool :=
  let pre := s.data.takeWhile isUrlProtocolChar
  (!pre.isEmpty) && ((s.data.drop pre.length).head? == some ':')

/-- JavaScript `String.prototype.split` with a one-character separator, on
a character list: always at least one group, empty groups kept. -/
def splitOnChar (sep : Char) : List Char → List (List Char)
  | [] => [[]]
  | c :: cs =>
    let r := splitOnChar sep cs
    if c == sep then [] :: r
    else
      match r with
      | [] => [[c]]
      | g :: gs => (c :: g) :: gs

/-- JavaScript `s.split(sep)` for a one-character separator. -/
def jsSplit (sep : Char) (s : String) : List String :=
  (splitOnChar sep s.data).map String.mk

/-- A whitespace character as `String.prototype.trim` removes it (the ASCII
ones that can occur in a cookie header). -/
def isJsSpace (c : Char) : Bool :=
  (c == ' ') || (c == Char.ofNat 9) || (c == Char.ofNat 10) ||
  (c == Char.ofNat 13) || (c == Char.ofNat 12) || (c == Char.ofNat 11)

/-- JavaScript `s.trim()`: remove leading and trailing whitespace. -/
def trimString (s : String) : String :=
  String.mk (((s.data.dropWhile isJsSpace).reverse.dropWhile isJsSpace).reverse)

/-- Lookup in an association list of cookies. -/
def assocGet : List (String × String) → String → Option String
  | [], _ => none
  | (k, v) :: rest, key => if k == key then some v else assocGet rest key

/-- JavaScript object assignment `cookies[key] = v` on an association
list: replace the existing binding or append a new one. -/
def assocSet : List (String × String) → String → String → List (String × String)
  | [], key, v => [(key, v)]
  | (k0, v0) :: rest, key, v =>
    if k0 == key then (k0, v) :: rest else (k0, v0) :: assocSet rest key v

/-- One iteration of the cookie parsing loop of `authenticate`: split the
fragment on `=`, trim the name, and store the trimmed value (empty when the
fragment has no `=`). The second `=`-separated part is taken and any later
parts are dropped, as in `parts[1]`. -/
def parseCookiePair (cookies : List (String × String)) (cookie : String) :
    List (String × String) :=
  let parts := jsSplit '=' cookie
  assocSet cookies (trimString (parts.headD "")) (trimString (parts.getD 1 ""))

/-- The cookie header parsing of `authenticate`: split the header on `;`
and fold `parseCookiePair` over the fragments. -/
def parseCookies (header : String) : List (String × String) :=
  (jsSplit ';' header).foldl parseCookiePair []

/-- The truthiness test `if (cookies[this._openAmCookieName])` of
`authenticate`, returning the token when the test passes: the cookie must
be bound and its value non-empty. -/
def cookieValue (cookies : List (String × String)) (name : String) : Option String :=
  match assocGet cookies name with
  | some v => if v == "" then none else some v
  | none => none

/-- First binding of a key among the fields of an object. -/
def fieldGet : List (String × JsVal) → String → Option JsVal
  | [], _ => none
  | (k, v) :: rest, key => if k == key then some v else fieldGet rest key

/-- JavaScript property read on an object value: the bound value, or
`undefined` when the key is absent. -/
def jsProp (fs : List (String × JsVal)) (key : String) : JsVal :=
  match fieldGet fs key with
  | some v => v
  | none => JsVal.undef

/-- Property read on the fields of an object value, `none` when the value
is not an object or the key is absent. -/
def objGet : JsVal → String → Option JsVal
  | JsVal.obj fs, key => fieldGet fs key
  | _, _ => none

/-- JavaScript property access `data.key` as the `userProfile` method
performs it: reads on objects yield the bound value or `undefined`, reads
on strings yield `undefined`, and reads on `undefined` or `null` throw a
TypeError. -/
def getProp : JsVal → String → Except JsError JsVal
  | JsVal.obj fs, key => Except.ok (jsProp fs key)
  | JsVal.str _, _ => Except.ok JsVal.undef
  | JsVal.undef, key =>
    Except.error (JsError.typeError ("cannot read property " ++ key ++ " of undefined"))
  | JsVal.null, key =>
    Except.error (JsError.typeError ("cannot read property " ++ key ++ " of null"))

/-- The body of the `try` block of `userProfile`: build the profile object
from the raw attribute data, field by field in source order, storing the
complete raw data under the `_raw` key. Any property access that throws
aborts the mapping with the thrown exception. -/
def mapProfile (data : JsVal) : Except JsError JsVal := do
  let tokenid ← getProp data "tokenid"
  let uid ← getProp data "uid"
  let cn ← getProp data "cn"
  let sn ← getProp data "sn"
  let givenname ← getProp data "givenname"
  let mail ← getProp data "mail"
  pure (JsVal.obj
    [("id", tokenid), ("username", uid), ("displayName", cn),
     ("name", JsVal.obj [("familyName", sn), ("givenName", givenname)]),
     ("email", mail), ("_raw", data)])

/-- The `userProfile` method: fetch the raw attributes and either wrap a
fetch failure in an InternalOpenAmError, or run the mapping with its
`catch` feeding any thrown exception to `done`. The first component is the
trace of external calls, the second the value `done` is called with. -/
def userProfileTraced (env : OpenAmEnv) (token : String) :
    List Call × Except JsError (Option JsVal) :=
  ([Call.getAttributesCall token],
   match env.getAttributes token with
   | Except.error e =>
     Except.error (JsError.internalOpenAmError "failed to get attributes" e)
   | Except.ok data =>
     match mapProfile data with
     | Except.error e => Except.error e
     | Except.ok p => Except.ok (some p))

/-- The `_loadUserProfile` method: dispatch on the shape of the configured
`skipUserProfile` option; skipping yields `none` (the `done(null)` call of
`skipIt`), not skipping delegates to `userProfile`. -/
def loadUserProfileTraced (cfg : StrategyConfig) (env : OpenAmEnv) (token : String) :
    List Call × Except JsError (Option JsVal) :=
  match cfg.skipUserProfile with
  | SkipUserProfile.asyncFn f =>
    match f token with
    | Except.error e => ([], Except.error e)
    | Except.ok skip =>
      if skip then ([], Except.ok none) else userProfileTraced env token
  | SkipUserProfile.syncFn f =>
    if f () then ([], Except.ok none) else userProfileTraced env token
  | SkipUserProfile.ofBool b =>
    if b then ([], Except.ok none) else userProfileTraced env token

/-- The boolean the `skipUserProfile` option resolves to, `none` when the
two-argument form reports an error. -/
def skipResolves : SkipUserProfile → String → Option Bool
  | SkipUserProfile.asyncFn f, token =>
    match f token with
    | Except.error _ => none
    | Except.ok b => some b
  | SkipUserProfile.syncFn f, _ => some (f ())
  | SkipUserProfile.ofBool b, _ => some b

/-- Modelled from the spec: the external openam collaborator supplies
`getLoginUiUrl(params)`, whose implementation is not part of this
repository. The spec states it builds the identity provider login UI URL
with the supplied query parameters, URL-encoding the values, the
constructed redirect URL being the provider login UI URL followed by
`?goto=` and the encoded goto value. -/
def hexDigitChar (n : Nat) : Char :=
  if n < 10 then Char.ofNat (48 + n) else Char.ofNat (55 + n)

/-- The three characters `%HH` encoding one byte. -/
def percentByte (b : Nat) : List Char :=
  ['%', hexDigitChar (b / 16 % 16), hexDigitChar (b % 16)]

/-- The UTF-8 bytes of one character. -/
def utf8Bytes (c : Char) : List Nat :=
  let n := c.toNat
  if n < 128 then [n]
  else if n < 2048 then [192 + n / 64, 128 + n % 64]
  else if n < 65536 then [224 + n / 4096, 128 + (n / 64) % 64, 128 + n % 64]
  else [240 + n / 262144, 128 + (n / 4096) % 64, 128 + (n / 64) % 64, 128 + n % 64]

/-- The characters `encodeURIComponent` leaves unescaped: ASCII letters and
digits and `- _ . ! ~ * ( )` and the apostrophe (code 39). -/
def isUnreservedUriChar (c : Char) : Bool :=
  (c.isAlpha || c.isDigit) ||
  ((c == '-') || (c == '_') || (c == '.') || (c == '!') || (c == '~') ||
   (c == '*') || (c == Char.ofNat 39) || (c == '(') || (c == ')'))

/-- `encodeURIComponent` on one character. -/
def encodeCharL (c : Char) : List Char :=
  if isUnreservedUriChar c then [c]
  else List.flatten ((utf8Bytes c).map percentByte)

/-- `encodeURIComponent` on a character list. -/
def urlEncodeList : List Char → List Char
  | [] => []
  | c :: cs => encodeCharL c ++ urlEncodeList cs

/-- `encodeURIComponent` on a string. -/
def urlEncode (s : String) : String := String.mk (urlEncodeList s.data)

/-- One `key=value` query parameter with the value URL-encoded, the pairs
separated by `&`. -/
def joinParams : List (String × String) → String
  | [] => ""
  | [kv] => kv.1 ++ "=" ++ urlEncode kv.2
  | kv :: rest => kv.1 ++ "=" ++ urlEncode kv.2 ++ "&" ++ joinParams rest

/-- Modelled from the spec: the login UI URL built by the external openam
collaborator from its base location and the query parameters, each value
URL-encoded. -/
def getLoginUiUrl (loginUiUrl : String) (params : List (String × String)) : String :=
  loginUiUrl ++ "?" ++ joinParams params

/-- The inline continuation `authenticate` hands to the application verify
function: an error value signals the error channel, a falsy user signals
the fail channel with the info value, a truthy user signals the success
channel with the user and the info value. -/
def verifyDoneHandler (d : VerifyDone) : Outcome :=
  match d.err with
  | some e => Outcome.error e
  | none =>
    match d.user with
    | none => Outcome.fail d.info
    | some u => Outcome.success u d.info

/-- The `authenticate` method of the strategy, with the trace of external
calls it makes. Points where the embedding mirrors a defect of the source
rather than the surrounding prose:
- after resolving the effective callback URL, a URL without a protocol
  enters the branch that reads the identifier `callbackURL`, which is
  declared nowhere, so the invocation throws a ReferenceError;
- when a code parameter is present, `req.headers.cookie.split` is evaluated
  without a guard, so a request without a cookie header throws a TypeError;
- when the parsed cookies do not contain a truthy session cookie, the
  method returns without signalling anything (the `else` belongs to the
  outer code check);
- in the invalid-token branch the source reads `this._openam` inside the
  `isTokenValid` callback, where `this` is not the strategy, so the member
  access on `undefined` throws a TypeError before any redirect. -/
def authenticateTraced (cfg : StrategyConfig) (env : OpenAmEnv) (req : Request)
    (opts : AuthOptions) : List Call × Outcome :=
  if req.queryError then
    ([], Outcome.fail none)
  else
    if (!(jsOrStr opts.callbackUrl cfg.callbackUrl == "")) &&
       (!hasProtocol (jsOrStr opts.callbackUrl cfg.callbackUrl)) then
      ([], Outcome.thrown (JsError.referenceError "callbackURL is not defined"))
    else
      if req.queryCode then
        match req.cookieHeader with
        | none =>
          ([], Outcome.thrown (JsError.typeError "cannot read property split of undefined"))
        | some header =>
          match cookieValue (parseCookies header) cfg.openAmCookieName with
          | some token =>
            if env.isTokenValid token then
              match loadUserProfileTraced cfg env token with
              | (calls, Except.error e) =>
                (Call.isTokenValidCall token :: calls, Outcome.error e)
              | (calls, Except.ok profile) =>
                (Call.isTokenValidCall token :: (calls ++ [Call.verifyCall token profile]),
                 verifyDoneHandler (env.verify req token profile))
            else
              ([Call.isTokenValidCall token],
               Outcome.thrown
                 (JsError.typeError "cannot read property getLoginUiUrl of undefined"))
          | none => ([], Outcome.nothing)
      else
        ([], Outcome.redirect (getLoginUiUrl env.loginUiUrl
          [("goto", jsOrStr opts.callbackUrl cfg.callbackUrl ++ "?code=true")]))

/-- The outcome of one `authenticate` invocation. -/
def authenticate (cfg : StrategyConfig) (env : OpenAmEnv) (req : Request)
    (opts : AuthOptions) : Outcome :=
  (authenticateTraced cfg env req opts).2

/-- A configuration with the default cookie name, an absolute callback URL
and profile fetching enabled. -/
def cfgMain : StrategyConfig :=
  { openAmCookieName := "iPlanetDirectoryPro"
    callbackUrl := "https://app.example.net/cb"
    skipUserProfile := SkipUserProfile.ofBool false }

/-- Same configuration with `skipUserProfile` set to true. -/
def cfgSkip : StrategyConfig :=
  { cfgMain with skipUserProfile := SkipUserProfile.ofBool true }

/-- Same configuration with a relative callback URL. -/
def cfgRelative : StrategyConfig :=
  { cfgMain with callbackUrl := "/auth/openam/callback" }

/-- The raw attribute mapping of the scenario in the spec. -/
def attrsBob : JsVal :=
  JsVal.obj
    [("tokenid", JsVal.str "t1"), ("uid", JsVal.str "bob"),
     ("cn", JsVal.str "Bob Smith"), ("sn", JsVal.str "Smith"),
     ("givenname", JsVal.str "Bob"), ("mail", JsVal.str "bob@x.com")]

/-- The profile object the source builds from `attrsBob`. -/
def profileBob : JsVal :=
  JsVal.obj
    [("id", JsVal.str "t1"), ("username", JsVal.str "bob"),
     ("displayName", JsVal.str "Bob Smith"),
     ("name", JsVal.obj [("familyName", JsVal.str "Smith"), ("givenName", JsVal.str "Bob")]),
     ("email", JsVal.str "bob@x.com"), ("_raw", attrsBob)]

/-- Collaborators that accept every token, return the scenario attributes
and whose verify callback accepts the user "bob". -/
def envValid : OpenAmEnv :=
  { isTokenValid := fun _ => true
    getAttributes := fun _ => Except.ok attrsBob
    loginUiUrl := "https://openam.example.com/openam/UI/Login"
    verify := fun _ _ _ => { err := none, user := some "bob", info := none } }

/-- Same collaborators with every token reported invalid. -/
def envInvalid : OpenAmEnv :=
  { envValid with isTokenValid := fun _ => false }

/-- Same collaborators with a failing attribute fetch. -/
def envAttrsFail : OpenAmEnv :=
  { envValid with getAttributes := fun _ => Except.error (JsError.appError "ECONNREFUSED") }

/-- Same collaborators with an attribute fetch that yields `undefined`, on
which the profile mapping throws. -/
def envAttrsUndef : OpenAmEnv :=
  { envValid with getAttributes := fun _ => Except.ok JsVal.undef }

/-- A request with neither an error nor a code parameter. -/
def reqNoCode : Request :=
  { queryError := false, queryCode := false, cookieHeader := none }

/-- A request with a code parameter and no cookie header at all. -/
def reqCodeNoCookieHeader : Request :=
  { queryError := false, queryCode := true, cookieHeader := none }

/-- A request with a code parameter and a cookie header lacking the session
cookie. -/
def reqCodeOtherCookie : Request :=
  { queryError := false, queryCode := true, cookieHeader := some "other=x" }

/-- Another request with a code parameter and a cookie header lacking the
session cookie. -/
def reqCodeFooCookie : Request :=
  { queryError := false, queryCode := true, cookieHeader := some "foo=y" }

/-- A request with a code parameter and the session cookie of the scenario
in the spec. -/
def reqCodeSession : Request :=
  { queryError := false, queryCode := true,
    cookieHeader := some "iPlanetDirectoryPro=tok123; other=x" }

/-- Empty per-request options. -/
def optsNone : AuthOptions := { callbackUrl := none }

/-- String concatenation is associative. -/
theorem strAppend_assoc (a b c : String) : a ++ b ++ c = a ++ (b ++ c) := by
  cases a with
  | mk da =>
    cases b with
    | mk db =>
      cases c with
      | mk dc =>
        show String.mk (da ++ db ++ dc) = String.mk (da ++ (db ++ dc))
        rw [List.append_assoc]

/-- URL-encoding a concatenation of character lists encodes the parts. -/
theorem urlEncodeList_append (l1 l2 : List Char) :
    urlEncodeList (l1 ++ l2) = urlEncodeList l1 ++ urlEncodeList l2 := by
  induction l1 with
  | nil => rfl
  | cons c cs ih => simp [urlEncodeList, ih]

/-- URL-encoding a concatenation of strings encodes the parts. -/
theorem urlEncode_append (a b : String) :
    urlEncode (a ++ b) = urlEncode a ++ urlEncode b := by
  cases a with
  | mk da =>
    cases b with
    | mk db =>
      show String.mk (urlEncodeList (da ++ db)) = _
      rw [urlEncodeList_append]
      rfl

/-- URL-encoding the appended code indicator. -/
theorem urlEncode_code_suffix : urlEncode "?code=true" = "%3Fcode%3Dtrue" := rfl

/-- The login UI URL for a single goto parameter. -/
theorem getLoginUiUrl_goto (base v : String) :
    getLoginUiUrl base [("goto", v)] = base ++ ("?goto=" ++ urlEncode v) := by
  show base ++ "?" ++ ("goto" ++ "=" ++ urlEncode v) = base ++ ("?goto=" ++ urlEncode v)
  rw [strAppend_assoc base "?" ("goto" ++ "=" ++ urlEncode v)]
  rw [← strAppend_assoc "?" ("goto" ++ "=") (urlEncode v)]
  rfl

/-- On a request with no error and no code parameter and an absolute
effective callback URL, `authenticate` makes no external calls and signals
a redirect to the login UI URL with the goto parameter. -/
theorem auth_redirect_path (cfg : StrategyConfig) (env : OpenAmEnv) (req : Request)
    (opts : AuthOptions)
    (hqe : req.queryError = false) (hqc : req.queryCode = false)
    (hcb : hasProtocol (jsOrStr opts.callbackUrl cfg.callbackUrl) = true) :
    authenticateTraced cfg env req opts =
      ([], Outcome.redirect (getLoginUiUrl env.loginUiUrl
        [("goto", jsOrStr opts.callbackUrl cfg.callbackUrl ++ "?code=true")])) := by
  simp [authenticateTraced, hqe, hqc, hcb]

/-- On the valid-token path with a successful profile resolution, the
trace is the validity check, the profile resolution calls and one verify
call, and the outcome is decided by the verify continuation handler. -/
theorem auth_valid_ok (cfg : StrategyConfig) (env : OpenAmEnv) (req : Request)
    (opts : AuthOptions) (header token : String) (calls : List Call) (p : Option JsVal)
    (hqe : req.queryError = false) (hqc : req.queryCode = true)
    (hcb : hasProtocol (jsOrStr opts.callbackUrl cfg.callbackUrl) = true)
    (hhdr : req.cookieHeader = some header)
    (hck : cookieValue (parseCookies header) cfg.openAmCookieName = some token)
    (hvalid : env.isTokenValid token = true)
    (hload : loadUserProfileTraced cfg env token = (calls, Except.ok p)) :
    authenticateTraced cfg env req opts =
      (Call.isTokenValidCall token :: (calls ++ [Call.verifyCall token p]),
       verifyDoneHandler (env.verify req token p)) := by
  simp [authenticateTraced, hqe, hqc, hcb, hhdr, hck, hvalid, hload]

/-- On the valid-token path with a failing profile resolution, the trace is
the validity check and the profile resolution calls, and the outcome is the
error channel with the reported error. -/
theorem auth_valid_err (cfg : StrategyConfig) (env : OpenAmEnv) (req : Request)
    (opts : AuthOptions) (header token : String) (calls : List Call) (e : JsError)
    (hqe : req.queryError = false) (hqc : req.queryCode = true)
    (hcb : hasProtocol (jsOrStr opts.callbackUrl cfg.callbackUrl) = true)
    (hhdr : req.cookieHeader = some header)
    (hck : cookieValue (parseCookies header) cfg.openAmCookieName = some token)
    (hvalid : env.isTokenValid token = true)
    (hload : loadUserProfileTraced cfg env token = (calls, Except.error e)) :
    authenticateTraced cfg env req opts =
      (Call.isTokenValidCall token :: calls, Outcome.error e) := by
  simp [authenticateTraced, hqe, hqc, hcb, hhdr, hck, hvalid, hload]

/-- `_loadUserProfile` skips or delegates to `userProfile` according to the
boolean the skip option resolves to. -/
theorem loadUserProfileTraced_skip (cfg : StrategyConfig) (env : OpenAmEnv)
    (token : String) (skip : Bool)
    (hskip : skipResolves cfg.skipUserProfile token = some skip) :
    loadUserProfileTraced cfg env token =
      if skip then ([], Except.ok none) else userProfileTraced env token := by
  cases hsu : cfg.skipUserProfile with
  | ofBool b =>
    rw [hsu] at hskip
    simp only [skipResolves, Option.some.injEq] at hskip
    subst hskip
    simp [loadUserProfileTraced, hsu]
  | syncFn f =>
    rw [hsu] at hskip
    simp only [skipResolves, Option.some.injEq] at hskip
    subst hskip
    simp [loadUserProfileTraced, hsu]
  | asyncFn f =>
    rw [hsu] at hskip
    simp only [skipResolves] at hskip
    cases hf : f token with
    | error e => rw [hf] at hskip; simp at hskip
    | ok b =>
      rw [hf] at hskip
      simp only [Option.some.injEq] at hskip
      subst hskip
      simp [loadUserProfileTraced, hsu, hf]

/-- Claim C1 (failing-input evaluation): the claim states that every
`authenticate` invocation signals exactly one of the four outcome
channels. On a request carrying a code parameter whose cookie header does
not contain the session cookie, the invocation returns after making no
external call and without signalling any channel, so the claimed lower
bound of one is violated by the code. -/
theorem c1_absent_session_cookie_signals_no_channel :
    authenticateTraced cfgMain envValid reqCodeFooCookie optsNone = ([], Outcome.nothing)
    ∧ Outcome.signalsChannel (authenticate cfgMain envValid reqCodeFooCookie optsNone) = false :=
  ⟨rfl, rfl⟩

/-- Claim C2 (failing-input evaluation): the claim states that a request
with a code parameter but without the session cookie is answered by the
same login redirect as the no-code case. The code instead returns without
signalling any outcome: the redirect construction sits in the `else` of
the code-parameter check, and the branch for an absent session cookie has
no handler at all. -/
theorem c2_code_without_session_cookie_signals_nothing :
    authenticate cfgMain envValid reqCodeOtherCookie optsNone = Outcome.nothing
    ∧ authenticate cfgMain envValid
        { queryError := false, queryCode := false, cookieHeader := some "other=x" } optsNone
      = Outcome.redirect (getLoginUiUrl envValid.loginUiUrl
          [("goto", cfgMain.callbackUrl ++ "?code=true")]) :=
  ⟨rfl, rfl⟩

/-- Claim C3 (failing-input evaluation): the claim states that a present
but invalid session token leads to the same login redirect. In the source
the invalid-token branch runs inside the `isTokenValid` callback and reads
`this._openam`, where `this` is no longer the strategy, so the invocation
throws a TypeError and never reaches the redirect call. -/
theorem c3_invalid_token_throws_instead_of_redirect :
    authenticate cfgMain envInvalid reqCodeSession optsNone
      = Outcome.thrown (JsError.typeError "cannot read property getLoginUiUrl of undefined") :=
  rfl

/-- Claim C4 (counterexample): the claim states that the complete raw
attribute mapping is retained under the key `rawAttributes`. On the
scenario attributes of the spec, the profile object the code builds has no
`rawAttributes` key; the raw mapping is stored under the key `_raw`. -/
theorem c4_raw_attributes_key_counterexample :
    mapProfile attrsBob = Except.ok profileBob
    ∧ objGet profileBob "rawAttributes" = none
    ∧ objGet profileBob "_raw" = some attrsBob :=
  ⟨rfl, rfl, rfl⟩

/-- Claim C4 (amended): profile normalization maps tokenid to id, uid to
username, cn to displayName, sn to name.familyName, givenname to
name.givenName and mail to email, and retains the complete raw attribute
mapping under the key `_raw`; the scenario attributes of the spec map to
the scenario profile. -/
theorem c4_profile_normalization_amended :
    (∀ fs : List (String × JsVal),
      mapProfile (JsVal.obj fs) = Except.ok (JsVal.obj
        [("id", jsProp fs "tokenid"), ("username", jsProp fs "uid"),
         ("displayName", jsProp fs "cn"),
         ("name", JsVal.obj
           [("familyName", jsProp fs "sn"), ("givenName", jsProp fs "givenname")]),
         ("email", jsProp fs "mail"), ("_raw", JsVal.obj fs)]))
    ∧ mapProfile attrsBob = Except.ok profileBob :=
  ⟨fun _ => rfl, rfl⟩

/-- Claim C5 (failing-input evaluation): the claim states that a relative
effective callback URL is qualified against the original request URL and
that the qualified URL is used in the goto parameter. The source assigns
the qualified URL to the undeclared identifier `callbackURL` and reads
that identifier while doing so, so an invocation with a relative callback
URL throws a ReferenceError and no redirect is ever issued. -/
theorem c5_relative_callback_url_throws :
    authenticate cfgRelative envValid reqNoCode optsNone
      = Outcome.thrown (JsError.referenceError "callbackURL is not defined")
    ∧ hasProtocol cfgRelative.callbackUrl = false :=
  ⟨rfl, rfl⟩

/-- Claim C9: a request without a code parameter (and without an error
parameter), under an absolute effective callback URL, is answered by a
redirect to the provider login UI URL whose query is the goto parameter
holding the URL-encoded callback URL with the encoded `?code=true`
appended. -/
theorem c9_no_code_redirect_goto (cfg : StrategyConfig) (env : OpenAmEnv)
    (req : Request) (opts : AuthOptions)
    (hqe : req.queryError = false) (hqc : req.queryCode = false)
    (hcb : hasProtocol (jsOrStr opts.callbackUrl cfg.callbackUrl) = true) :
    authenticate cfg env req opts =
      Outcome.redirect (env.loginUiUrl ++ ("?goto=" ++
        (urlEncode (jsOrStr opts.callbackUrl cfg.callbackUrl) ++ "%3Fcode%3Dtrue"))) := by
  have h := auth_redirect_path cfg env req opts hqe hqc hcb
  unfold authenticate
  rw [h]
  show Outcome.redirect (getLoginUiUrl env.loginUiUrl
    [("goto", jsOrStr opts.callbackUrl cfg.callbackUrl ++ "?code=true")]) = _
  rw [getLoginUiUrl_goto, urlEncode_append, urlEncode_code_suffix]

/-- Claim C9 witness: the redirect for the default configuration on a
request without a code parameter. -/
theorem c9_no_code_redirect_goto_witness :
    authenticate cfgMain envValid reqNoCode optsNone =
      Outcome.redirect ("https://openam.example.com/openam/UI/Login" ++ ("?goto=" ++
        (urlEncode "https://app.example.net/cb" ++ "%3Fcode%3Dtrue"))) :=
  c9_no_code_redirect_goto cfgMain envValid reqNoCode optsNone rfl rfl rfl

/-- Claim C10: a request with a code parameter but no cookie header at all
makes `authenticate` throw from the unguarded split of the cookie header,
and no outcome channel is signalled. -/
theorem c10_missing_cookie_header_throws (cfg : StrategyConfig) (env : OpenAmEnv)
    (req : Request) (opts : AuthOptions)
    (hqe : req.queryError = false) (hqc : req.queryCode = true)
    (hcb : hasProtocol (jsOrStr opts.callbackUrl cfg.callbackUrl) = true)
    (hhdr : req.cookieHeader = none) :
    authenticate cfg env req opts
      = Outcome.thrown (JsError.typeError "cannot read property split of undefined")
    ∧ Outcome.signalsChannel (authenticate cfg env req opts) = false := by
  have h : authenticate cfg env req opts
      = Outcome.thrown (JsError.typeError "cannot read property split of undefined") := by
    simp [authenticate, authenticateTraced, hqe, hqc, hcb, hhdr]
  exact ⟨h, by rw [h]; rfl⟩

/-- Claim C10 witness: the default configuration on a request with a code
parameter and no cookie header. -/
theorem c10_missing_cookie_header_throws_witness :
    authenticate cfgMain envValid reqCodeNoCookieHeader optsNone
      = Outcome.thrown (JsError.typeError "cannot read property split of undefined")
    ∧ Outcome.signalsChannel (authenticate cfgMain envValid reqCodeNoCookieHeader optsNone)
      = false :=
  c10_missing_cookie_header_throws cfgMain envValid reqCodeNoCookieHeader optsNone rfl rfl rfl rfl

/-- Claim C6: on a request with a present, valid session token whose
profile resolution succeeds, the attribute fetch is invoked exactly once,
except that it is invoked zero times when the skip option resolves true,
and the verify callback is invoked exactly once with the resolved profile,
which is null whenever the skip option resolved true. -/
theorem c6_valid_token_call_counts (cfg : StrategyConfig) (env : OpenAmEnv)
    (req : Request) (opts : AuthOptions) (header token : String)
    (calls : List Call) (p : Option JsVal) (skip : Bool)
    (hqe : req.queryError = false) (hqc : req.queryCode = true)
    (hcb : hasProtocol (jsOrStr opts.callbackUrl cfg.callbackUrl) = true)
    (hhdr : req.cookieHeader = some header)
    (hck : cookieValue (parseCookies header) cfg.openAmCookieName = some token)
    (hvalid : env.isTokenValid token = true)
    (hskip : skipResolves cfg.skipUserProfile token = some skip)
    (hload : loadUserProfileTraced cfg env token = (calls, Except.ok p)) :
    (((authenticateTraced cfg env req opts).1.filter Call.isGetAttributesCall).length
        = if skip then 0 else 1)
    ∧ (authenticateTraced cfg env req opts).1.filter Call.isVerifyCall
        = [Call.verifyCall token p]
    ∧ (skip = true → p = none) := by
  have hmain := auth_valid_ok cfg env req opts header token calls p
    hqe hqc hcb hhdr hck hvalid hload
  rw [loadUserProfileTraced_skip cfg env token skip hskip] at hload
  cases skip with
  | true =>
    simp only [if_true] at hload
    have hload2 : ([] : List Call) = calls ∧ (Except.ok (none : Option JsVal)
        : Except JsError (Option JsVal)) = Except.ok p := by
      rw [← Prod.mk.injEq]
      exact hload
    obtain ⟨hc, hp⟩ := hload2
    have hp2 : (none : Option JsVal) = p := by
      injection hp
    subst hc
    subst hp2
    rw [hmain]
    simp [List.filter, Call.isGetAttributesCall, Call.isVerifyCall]
  | false =>
    simp only [if_neg, Bool.false_eq_true, not_false_iff, ite_false] at hload
    have hload2 : loadUserProfileTraced cfg env token = (calls, Except.ok p) := by
      rw [loadUserProfileTraced_skip cfg env token false hskip]
      simpa using hload
    have hcalls : [Call.getAttributesCall token] = calls := by
      have := congrArg Prod.fst hload
      simpa [userProfileTraced] using this
    subst hcalls
    rw [hmain]
    refine ⟨?_, ?_, ?_⟩
    · simp [List.filter, Call.isGetAttributesCall]
    · simp [List.filter, Call.isVerifyCall, Call.isGetAttributesCall]
    · intro h
      exact absurd h (by simp)

/-- Claim C6 witness: with `skipUserProfile = true` and a valid token, the
attribute fetch is never invoked and the verify callback is invoked once
with a null profile. -/
theorem c6_valid_token_call_counts_witness :
    (((authenticateTraced cfgSkip envValid reqCodeSession optsNone).1.filter
        Call.isGetAttributesCall).length = if true then 0 else 1)
    ∧ (authenticateTraced cfgSkip envValid reqCodeSession optsNone).1.filter
        Call.isVerifyCall = [Call.verifyCall "tok123" none]
    ∧ (true = true → (none : Option JsVal) = none) :=
  c6_valid_token_call_counts cfgSkip envValid reqCodeSession optsNone
    "iPlanetDirectoryPro=tok123; other=x" "tok123" [] none true
    rfl rfl rfl rfl rfl rfl rfl rfl

/-- Claim C7: after a valid-token authentication with a resolved profile,
the outcome is decided exactly by the arguments the application verify
function passes to its continuation: an error signals the error channel
with that cause, no error and a falsy user signals the fail channel with
the info value, and no error with a truthy user signals the success
channel with the user and the info value. -/
theorem c7_verify_continuation_outcomes (cfg : StrategyConfig) (env : OpenAmEnv)
    (req : Request) (opts : AuthOptions) (header token : String)
    (calls : List Call) (p : Option JsVal)
    (hqe : req.queryError = false) (hqc : req.queryCode = true)
    (hcb : hasProtocol (jsOrStr opts.callbackUrl cfg.callbackUrl) = true)
    (hhdr : req.cookieHeader = some header)
    (hck : cookieValue (parseCookies header) cfg.openAmCookieName = some token)
    (hvalid : env.isTokenValid token = true)
    (hload : loadUserProfileTraced cfg env token = (calls, Except.ok p)) :
    (∀ e, (env.verify req token p).err = some e →
        authenticate cfg env req opts = Outcome.error e)
    ∧ ((env.verify req token p).err = none → (env.verify req token p).user = none →
        authenticate cfg env req opts = Outcome.fail (env.verify req token p).info)
    ∧ (∀ u, (env.verify req token p).err = none →
        (env.verify req token p).user = some u →
        authenticate cfg env req opts = Outcome.success u (env.verify req token p).info) := by
  have hmain := auth_valid_ok cfg env req opts header token calls p
    hqe hqc hcb hhdr hck hvalid hload
  have hauth : authenticate cfg env req opts
      = verifyDoneHandler (env.verify req token p) := by
    unfold authenticate
    rw [hmain]
  refine ⟨?_, ?_, ?_⟩
  · intro e he
    rw [hauth]
    unfold verifyDoneHandler
    rw [he]
  · intro he hu
    rw [hauth]
    unfold verifyDoneHandler
    rw [he, hu]
  · intro u he hu
    rw [hauth]
    unfold verifyDoneHandler
    rw [he, hu]

/-- Claim C7 witness: the verify function that accepts the user bob yields
the success outcome with that user. -/
theorem c7_verify_continuation_outcomes_witness :
    authenticate cfgMain envValid reqCodeSession optsNone = Outcome.success "bob" none :=
  (c7_verify_continuation_outcomes cfgMain envValid reqCodeSession optsNone
      "iPlanetDirectoryPro=tok123; other=x" "tok123" [Call.getAttributesCall "tok123"]
      (some profileBob) rfl rfl rfl rfl rfl rfl rfl).2.2 "bob" rfl rfl

/-- Claim C8: on the valid-token path with profile fetching enabled, a
failing attribute fetch surfaces on the error channel wrapped in the
provider-specific InternalOpenAmError carrying the underlying cause, and
an exception thrown while mapping the attributes into the profile is
caught and surfaces on the error channel as well. -/
theorem c8_profile_failure_error_channel (cfg : StrategyConfig) (env : OpenAmEnv)
    (req : Request) (opts : AuthOptions) (header token : String)
    (hqe : req.queryError = false) (hqc : req.queryCode = true)
    (hcb : hasProtocol (jsOrStr opts.callbackUrl cfg.callbackUrl) = true)
    (hhdr : req.cookieHeader = some header)
    (hck : cookieValue (parseCookies header) cfg.openAmCookieName = some token)
    (hvalid : env.isTokenValid token = true)
    (hskip : skipResolves cfg.skipUserProfile token = some false) :
    (∀ e, env.getAttributes token = Except.error e →
      authenticate cfg env req opts
        = Outcome.error (JsError.internalOpenAmError "failed to get attributes" e))
    ∧ (∀ data e, env.getAttributes token = Except.ok data →
        mapProfile data = Except.error e →
        authenticate cfg env req opts = Outcome.error e) := by
  have hskipload := loadUserProfileTraced_skip cfg env token false hskip
  constructor
  · intro e he
    have hload : loadUserProfileTraced cfg env token
        = ([Call.getAttributesCall token],
           Except.error (JsError.internalOpenAmError "failed to get attributes" e)) := by
      rw [hskipload]
      simp [userProfileTraced, he]
    have hmain := auth_valid_err cfg env req opts header token
      [Call.getAttributesCall token]
      (JsError.internalOpenAmError "failed to get attributes" e)
      hqe hqc hcb hhdr hck hvalid hload
    unfold authenticate
    rw [hmain]
  · intro data e hdata hmap
    have hload : loadUserProfileTraced cfg env token
        = ([Call.getAttributesCall token], Except.error e) := by
      rw [hskipload]
      simp [userProfileTraced, hdata, hmap]
    have hmain := auth_valid_err cfg env req opts header token
      [Call.getAttributesCall token] e hqe hqc hcb hhdr hck hvalid hload
    unfold authenticate
    rw [hmain]

/-- Claim C8 witness: a refused connection during the attribute fetch
surfaces as the wrapped InternalOpenAmError on the error channel, and raw
attribute data of `undefined`, on which the mapping throws, surfaces as
that TypeError on the error channel. -/
theorem c8_profile_failure_error_channel_witness :
    authenticate cfgMain envAttrsFail reqCodeSession optsNone
      = Outcome.error (JsError.internalOpenAmError "failed to get attributes"
          (JsError.appError "ECONNREFUSED"))
    ∧ authenticate cfgMain envAttrsUndef reqCodeSession optsNone
      = Outcome.error (JsError.typeError "cannot read property tokenid of undefined") :=
  ⟨(c8_profile_failure_error_channel cfgMain envAttrsFail reqCodeSession optsNone
      "iPlanetDirectoryPro=tok123; other=x" "tok123" rfl rfl rfl rfl rfl rfl rfl).1
      (JsError.appError "ECONNREFUSED") rfl,
   (c8_profile_failure_error_channel cfgMain envAttrsUndef reqCodeSession optsNone
      "iPlanetDirectoryPro=tok123; other=x" "tok123" rfl rfl rfl rfl rfl rfl rfl).2
      JsVal.undef (JsError.typeError "cannot read property tokenid of undefined") rfl rfl⟩
